import Mathlib

set_option maxRecDepth 4000

namespace Dashboard

/-!
Shallow embedding of the incident dashboard (src/src/App.tsx).

JavaScript strings are modelled as Lean `String`; the JS string library
functions used by the app (trim, toLowerCase, includes, split) are given
explicit executable models below, and `new Date(s).getTime()` for the
ISO-8601 UTC strings produced and consumed by the app is modelled by
`getTime`.
-/

/-- Whitespace characters relevant to JS `String.prototype.trim` for the
inputs of this app (space, tab, newline, carriage return). -/
def isJsWs (c : Char) : Bool :=
  c == ' ' || c == '\t' || c == '\n' || c == '\r'

/-- Model of JS `s.trim()`: remove leading and trailing whitespace. -/
def jsTrim (s : String) : String :=
  ⟨((s.data.dropWhile isJsWs).reverse.dropWhile isJsWs).reverse⟩

/-- Model of JS `s.toLowerCase()` on the ASCII strings used here. -/
def jsToLower (s : String) : String :=
  ⟨s.data.map Char.toLower⟩

/-- Does the list `l` start with the list `pat`? -/
def startsWithSeq : List Char → List Char → Bool
  | _, [] => true
  | [], _ :: _ => false
  | c :: cs, d :: ds => c == d && startsWithSeq cs ds

/-- Does `pat` occur as a contiguous subsequence of `l`? -/
def containsSeq : List Char → List Char → Bool
  | [], pat => startsWithSeq [] pat
  | c :: cs, pat => startsWithSeq (c :: cs) pat || containsSeq cs pat

/-- Model of JS `s.includes(pat)`. -/
def jsIncludes (s pat : String) : Bool :=
  containsSeq s.data pat.data

/-- Accumulator-based splitting of a character list at commas. -/
def splitCommaAux : List Char → List Char → List String
  | [], acc => [⟨acc.reverse⟩]
  | c :: cs, acc =>
    if c == ',' then ⟨acc.reverse⟩ :: splitCommaAux cs []
    else splitCommaAux cs (c :: acc)

/-- Model of JS `s.split(",")`; note `"".split(",")` is `[""]`. -/
def jsSplitComma (s : String) : List String :=
  splitCommaAux s.data []

/-- Gregorian leap-year test. -/
def isLeap (y : Nat) : Bool :=
  (y % 4 == 0 && y % 100 != 0) || y % 400 == 0

/-- Number of days in year `y`. -/
def daysInYear (y : Nat) : Nat :=
  if isLeap y then 366 else 365

/-- Days in the months before month `m` (1-based) of a year. -/
def monthOffset (leap : Bool) (m : Nat) : Nat :=
  (([31, if leap then 29 else 28, 31, 30, 31, 30, 31, 31, 30, 31, 30, 31].take
    (m - 1)).foldl (· + ·) 0)

/-- Days from 1970-01-01 to the civil date `y-m-d` (for `y ≥ 1970`). -/
def daysSinceEpoch (y m d : Nat) : Nat :=
  ((List.range (y - 1970)).map (fun i => daysInYear (1970 + i))).foldl (· + ·) 0
    + monthOffset (isLeap y) m + (d - 1)

/-- Numeric value of a decimal digit character. -/
def digitVal (c : Char) : Nat := c.toNat - 48

/-- Natural number denoted by a list of decimal digit characters. -/
def natOfDigits (cs : List Char) : Nat :=
  cs.foldl (fun a c => a * 10 + digitVal c) 0

/-- Model of JS `new Date(s).getTime()` for the ISO-8601 UTC strings this
app stores in `reported_at`: either `YYYY-MM-DD` (parsed as UTC midnight)
or `YYYY-MM-DDTHH:MM:SS(.sss)Z`, with all dates on or after 1970-01-01.
Returns milliseconds since the Unix epoch. -/
def getTime (s : String) : Int :=
  let cs := s.data
  let y := natOfDigits (cs.take 4)
  let m := natOfDigits ((cs.drop 5).take 2)
  let d := natOfDigits ((cs.drop 8).take 2)
  let hh := natOfDigits ((cs.drop 11).take 2)
  let mi := natOfDigits ((cs.drop 14).take 2)
  let ss := natOfDigits ((cs.drop 17).take 2)
  let ms := if cs.length ≥ 24 then natOfDigits ((cs.drop 20).take 3) else 0
  ((daysSinceEpoch y m d) * 86400000 + hh * 3600000 + mi * 60000
    + ss * 1000 + ms : Nat)

/-- The Incident record of App.tsx.  `severity` is kept as the runtime
string (the TS `as` cast performs no conversion); `tags` is optional as in
the interface declaration (`tags?: string[]`). -/
structure Incident where
  id : Nat
  title : String
  description : String
  severity : String
  reported_at : String
  acknowledged : Bool
  tags : Option (List String)
deriving Repr, DecidableEq

/-- The seed data `initialIncidents` of App.tsx. -/
def initialIncidents : List Incident :=
  [{ id := 1,
     title := "Biased Recommendation Algorithm",
     description := "Algorithm consistently favored certain demographics...",
     severity := "Medium",
     reported_at := "2025-03-15T10:00:00Z",
     acknowledged := false,
     tags := some ["Bias", "Algorithm"] },
   { id := 2,
     title := "LLM Hallucination in Critical Info",
     description := "LLM provided incorrect safety procedure information...",
     severity := "High",
     reported_at := "2025-04-01T14:30:00Z",
     acknowledged := false,
     tags := some ["Hallucination", "LLM"] },
   { id := 3,
     title := "Minor Data Leak via Chatbot",
     description := "Chatbot inadvertently exposed non-sensitive user metadata...",
     severity := "Low",
     reported_at := "2025-03-20T09:15:00Z",
     acknowledged := false,
     tags := some ["Privacy", "Chatbot"] }]

/-- The form state `newIncident` of App.tsx (the Draft): raw text fields. -/
structure Draft where
  title : String
  description : String
  severity : String
  tags : String
deriving Repr, DecidableEq

/-- The reset value of the form after a successful submission. -/
def emptyDraft : Draft :=
  { title := "", description := "", severity := "Low", tags := "" }

/-- The severity-filter predicate from the first `.filter` of App.tsx line
59: keep when the selector is "All", else compare severity strings. -/
def sevKeep (filter : String) (i : Incident) : Bool :=
  if filter == "All" then true else i.severity == filter

/-- The search predicate from the second `.filter` of App.tsx lines 60-64:
case-insensitive substring match on title, description, or any tag; the
optional chaining `i.tags?.some(...)` yields a falsy value when `tags` is
absent. -/
def searchKeep (search : String) (i : Incident) : Bool :=
  jsIncludes (jsToLower i.title) (jsToLower search) ||
  jsIncludes (jsToLower i.description) (jsToLower search) ||
  (match i.tags with
   | none => false
   | some ts => ts.any fun tag => jsIncludes (jsToLower tag) (jsToLower search))

/-- The `filtered` chain of App.tsx lines 58-64: severity filter then
search filter. -/
def filtered (filter search : String) (incidents : List Incident) :
    List Incident :=
  (incidents.filter (sevKeep filter)).filter (searchKeep search)

/-- The sort comparator of App.tsx lines 66-70, returning the signed
difference of parsed times. -/
def compareByTime (sortOrder : String) (a b : Incident) : Int :=
  if sortOrder == "newest" then getTime b.reported_at - getTime a.reported_at
  else getTime a.reported_at - getTime b.reported_at

/-- The `sorted` view of App.tsx line 66: JS `Array.prototype.sort` is a
stable sort placing `a` before `b` when the comparator is non-positive,
modelled by `List.mergeSort`. -/
def sortedView (filter search sortOrder : String)
    (incidents : List Incident) : List Incident :=
  (filtered filter search incidents).mergeSort
    fun a b => decide (compareByTime sortOrder a b ≤ 0)

/-- The tag construction of App.tsx line 81: split the raw text on commas,
trim each piece, keep the truthy (non-empty) results. -/
def splitTags (raw : String) : List String :=
  ((jsSplitComma raw).map jsTrim).filter fun t => !(t == "")

/-- The `handleAddIncident` handler of App.tsx lines 72-85.  The clock
readings `Date.now()` and `new Date().toISOString()` are passed in as
`nowMs` and `nowIso`.  Returns the new store and the new draft state. -/
def handleAddIncident (nowMs : Nat) (nowIso : String) (draft : Draft)
    (incidents : List Incident) : List Incident × Draft :=
  if jsTrim draft.title == "" || jsTrim draft.description == "" then
    (incidents, draft)
  else
    ({ id := nowMs,
       title := draft.title,
       description := draft.description,
       severity := draft.severity,
       reported_at := nowIso,
       acknowledged := false,
       tags := some (splitTags draft.tags) } :: incidents,
     emptyDraft)

/-- The `toggleAcknowledge` handler of App.tsx lines 87-95. -/
def toggleAcknowledge (id : Nat) (incidents : List Incident) :
    List Incident :=
  incidents.map fun incident =>
    if incident.id == id then
      { incident with acknowledged := !incident.acknowledged }
    else incident

/-- The expansion click handler of App.tsx line 180:
`setExpanded(expanded === incident.id ? null : incident.id)`. -/
def selectExpand (expanded : Option Nat) (id : Nat) : Option Nat :=
  if expanded == some id then none else some id

/-- One user-level store mutation: an add (with its clock readings and the
draft being submitted) or an acknowledge toggle. -/
inductive Op where
  | add (nowMs : Nat) (nowIso : String) (draft : Draft)
  | toggle (id : Nat)
deriving Repr, DecidableEq

/-- Apply one operation to the store (the draft component of add's result
does not affect the store and is dropped here). -/
def applyOp (op : Op) (incidents : List Incident) : List Incident :=
  match op with
  | Op.add nowMs nowIso draft => (handleAddIncident nowMs nowIso draft incidents).1
  | Op.toggle id => toggleAcknowledge id incidents

/-- Run a sequence of operations left to right. -/
def runOps (ops : List Op) (incidents : List Incident) : List Incident :=
  match ops with
  | [] => incidents
  | op :: rest => runOps rest (applyOp op incidents)

/-- The ids currently in the store, in order. -/
def storeIds (incidents : List Incident) : List Nat :=
  incidents.map (·.id)

/-- The clock readings consumed by the add operations of a sequence. -/
def addTimes : List Op → List Nat
  | [] => []
  | Op.add nowMs _ _ :: rest => nowMs :: addTimes rest
  | Op.toggle _ :: rest => addTimes rest

/-- Example Incident with severity Low, for the filter examples. -/
def exSevLow : Incident :=
  { id := 21, title := "L", description := "l", severity := "Low",
    reported_at := "2025-01-01", acknowledged := false, tags := none }

/-- Example Incident with severity High (first of two). -/
def exSevHigh1 : Incident :=
  { id := 22, title := "H1", description := "h1", severity := "High",
    reported_at := "2025-01-02", acknowledged := false, tags := none }

/-- Example Incident with severity Medium. -/
def exSevMed : Incident :=
  { id := 23, title := "M", description := "m", severity := "Medium",
    reported_at := "2025-01-03", acknowledged := false, tags := none }

/-- Example Incident with severity High (second of two). -/
def exSevHigh2 : Incident :=
  { id := 24, title := "H2", description := "h2", severity := "High",
    reported_at := "2025-01-04", acknowledged := false, tags := none }

/-- Example Incident reported 2025-03-15, for the sorting example. -/
def exMar15 : Incident :=
  { id := 31, title := "A", description := "a", severity := "Low",
    reported_at := "2025-03-15", acknowledged := false, tags := none }

/-- Example Incident reported 2025-04-01. -/
def exApr01 : Incident :=
  { id := 32, title := "B", description := "b", severity := "Low",
    reported_at := "2025-04-01", acknowledged := false, tags := none }

/-- Example Incident reported 2025-03-20. -/
def exMar20 : Incident :=
  { id := 33, title := "C", description := "c", severity := "Low",
    reported_at := "2025-03-20", acknowledged := false, tags := none }

/-- Example Incident matched only through its "LLM" tag. -/
def exLLM : Incident :=
  { id := 41, title := "", description := "", severity := "High",
    reported_at := "2025-02-01", acknowledged := false,
    tags := some ["LLM"] }

/-- The comparator is transitive, as a relation on Incidents. -/
theorem compareByTime_trans (sortOrder : String) (a b c : Incident)
    (hab : decide (compareByTime sortOrder a b ≤ 0) = true)
    (hbc : decide (compareByTime sortOrder b c ≤ 0) = true) :
    decide (compareByTime sortOrder a c ≤ 0) = true := by
  simp only [decide_eq_true_eq] at hab hbc ⊢
  unfold compareByTime at hab hbc ⊢
  by_cases ho : (sortOrder == "newest") = true
  · rw [if_pos ho] at hab hbc ⊢; omega
  · rw [if_neg ho] at hab hbc ⊢; omega

/-- The comparator is total, as a relation on Incidents. -/
theorem compareByTime_total (sortOrder : String) (a b : Incident) :
    (decide (compareByTime sortOrder a b ≤ 0) ||
      decide (compareByTime sortOrder b a ≤ 0)) = true := by
  simp only [Bool.or_eq_true, decide_eq_true_eq]
  unfold compareByTime
  by_cases ho : (sortOrder == "newest") = true
  · rw [if_pos ho, if_pos ho]; omega
  · rw [if_neg ho, if_neg ho]; omega

/-- An empty pattern is contained in every character list. -/
theorem containsSeq_nil (l : List Char) : containsSeq l [] = true := by
  cases l <;> simp [containsSeq, startsWithSeq]

/-- Mapping the toggle body with an even number of flips is the identity. -/
theorem map_toggle_even (id : Nat) (l : List Incident) :
    (l.map fun inc =>
      if inc.id == id then
        { inc with acknowledged := xor inc.acknowledged false }
      else inc) = l := by
  induction l with
  | nil => rfl
  | cons a t ih =>
    cases a with
    | mk i ti de se re ac tg => simp [ih]

/-- Iterating `toggleAcknowledge` n times flips the matching flags by the
parity of n and leaves everything else alone. -/
theorem toggleN_eq (id : Nat) (n : Nat) (incidents : List Incident) :
    (toggleAcknowledge id)^[n] incidents =
      incidents.map fun inc =>
        if inc.id == id then
          { inc with acknowledged := xor inc.acknowledged (n % 2 == 1) }
        else inc := by
  induction n with
  | zero =>
    simp
  | succ n ih =>
    rw [Function.iterate_succ_apply', ih, toggleAcknowledge, List.map_map]
    refine List.map_congr_left fun a _ => ?_
    rcases Nat.mod_two_eq_zero_or_one n with h2 | h2
    · have h3 : (n + 1) % 2 = 1 := by omega
      cases a with
      | mk i ti de se re ac tg =>
        by_cases h : i = id <;> simp [Function.comp, h, h2, h3]
    · have h3 : (n + 1) % 2 = 0 := by omega
      cases a with
      | mk i ti de se re ac tg =>
        by_cases h : i = id <;> simp [Function.comp, h, h2, h3]

/-- C1: for a Draft whose title and description are non-empty after
trimming, `handleAddIncident` prepends a fresh Incident (acknowledged
false, reported_at the current time, severity from the Draft, tags the
comma-split/trimmed/non-empty pieces of the raw tag text) to the unchanged
previous store, and resets the Draft; the tag text "a, b ,, c" yields
["a", "b", "c"]. -/
theorem claim_C1_add_valid (nowMs : Nat) (nowIso : String) (draft : Draft)
    (incidents : List Incident)
    (hT : jsTrim draft.title ≠ "") (hD : jsTrim draft.description ≠ "") :
    handleAddIncident nowMs nowIso draft incidents =
      ({ id := nowMs,
         title := draft.title,
         description := draft.description,
         severity := draft.severity,
         reported_at := nowIso,
         acknowledged := false,
         tags := some (splitTags draft.tags) } :: incidents,
       emptyDraft) ∧
    splitTags "a, b ,, c" = ["a", "b", "c"] := by
  refine ⟨?_, by decide⟩
  simp [handleAddIncident, hT, hD]

/-- C1 witness at a concrete draft and store. -/
theorem claim_C1_witness :
    handleAddIncident 100 "2025-05-01T00:00:00Z"
        { title := "T", description := "D", severity := "High",
          tags := "a, b ,, c" } initialIncidents =
      ({ id := 100,
         title := "T",
         description := "D",
         severity := "High",
         reported_at := "2025-05-01T00:00:00Z",
         acknowledged := false,
         tags := some (splitTags "a, b ,, c") } :: initialIncidents,
       emptyDraft) ∧
    splitTags "a, b ,, c" = ["a", "b", "c"] :=
  claim_C1_add_valid 100 "2025-05-01T00:00:00Z"
    { title := "T", description := "D", severity := "High",
      tags := "a, b ,, c" } initialIncidents (by decide) (by decide)

/-- C2: when the Draft's title or description trims to empty,
`handleAddIncident` leaves both the store and the Draft unchanged. -/
theorem claim_C2_add_blank (nowMs : Nat) (nowIso : String) (draft : Draft)
    (incidents : List Incident)
    (h : jsTrim draft.title = "" ∨ jsTrim draft.description = "") :
    handleAddIncident nowMs nowIso draft incidents = (incidents, draft) := by
  rcases h with h | h <;> simp [handleAddIncident, h]

/-- C2 witness: a draft with whitespace-only title is declined. -/
theorem claim_C2_witness :
    handleAddIncident 100 "2025-05-01T00:00:00Z"
        { title := "   ", description := "D", severity := "Low", tags := "" }
        initialIncidents =
      (initialIncidents,
       { title := "   ", description := "D", severity := "Low", tags := "" }) :=
  claim_C2_add_blank 100 "2025-05-01T00:00:00Z"
    { title := "   ", description := "D", severity := "Low", tags := "" }
    initialIncidents (Or.inl (by decide))

/-- C3: `toggleAcknowledge` preserves length and order, negates exactly the
acknowledged flag of every Incident whose id matches (all other fields
kept), leaves non-matching Incidents untouched, and is a no-op when no
Incident matches. -/
theorem claim_C3_toggle_frame (id : Nat) (incidents : List Incident) :
    (toggleAcknowledge id incidents).length = incidents.length ∧
    (∀ i : Fin incidents.length,
      (toggleAcknowledge id incidents)[i.val]? =
        some (if (incidents.get i).id = id then
          { incidents.get i with
            acknowledged := !(incidents.get i).acknowledged }
        else incidents.get i)) ∧
    ((∀ x ∈ incidents, x.id ≠ id) →
      toggleAcknowledge id incidents = incidents) := by
  refine ⟨by simp [toggleAcknowledge], fun i => ?_, fun h => ?_⟩
  · rw [toggleAcknowledge, List.getElem?_map,
      List.getElem?_eq_getElem i.isLt]
    by_cases hid : (incidents.get i).id = id <;>
      simp [hid, List.get_eq_getElem]
  · rw [toggleAcknowledge]
    have hmap : ∀ a ∈ incidents,
        (if a.id == id then
          { a with acknowledged := !a.acknowledged }
        else a) = a := by
      intro a ha
      simp [h a ha]
    simpa using List.map_congr_left hmap

/-- C3 witness: a no-op for an absent id and a flip at index 1 for id 2. -/
theorem claim_C3_witness :
    toggleAcknowledge 99 initialIncidents = initialIncidents ∧
    (toggleAcknowledge 2 initialIncidents)[1]? =
      some (if (initialIncidents.get ⟨1, by decide⟩).id = 2 then
        { initialIncidents.get ⟨1, by decide⟩ with
          acknowledged := !(initialIncidents.get ⟨1, by decide⟩).acknowledged }
      else initialIncidents.get ⟨1, by decide⟩) :=
  ⟨(claim_C3_toggle_frame 99 initialIncidents).2.2 (by decide),
   (claim_C3_toggle_frame 2 initialIncidents).2.1 ⟨1, by decide⟩⟩

/-- C4: after n applications of `toggleAcknowledge id`, every Incident
whose id matches carries its initial flag XOR the parity of n, and two
consecutive applications restore the original store. -/
theorem claim_C4_toggle_parity (id : Nat) (incidents : List Incident)
    (n : Nat) :
    (∀ i : Fin incidents.length, (incidents.get i).id = id →
      ((toggleAcknowledge id)^[n] incidents)[i.val]? =
        some { incidents.get i with
               acknowledged :=
                 xor (incidents.get i).acknowledged (n % 2 == 1) }) ∧
    toggleAcknowledge id (toggleAcknowledge id incidents) = incidents := by
  constructor
  · intro i hi
    rw [toggleN_eq, List.getElem?_map, List.getElem?_eq_getElem i.isLt]
    simp only [List.get_eq_getElem] at hi
    simp [hi, List.get_eq_getElem]
  · have h2 := toggleN_eq id 2 incidents
    have h0 : ((2 : Nat) % 2 == 1) = false := by decide
    rw [h0] at h2
    calc toggleAcknowledge id (toggleAcknowledge id incidents)
        = (toggleAcknowledge id)^[2] incidents := rfl
      _ = incidents := by rw [h2, map_toggle_even]

/-- C4 witness: three toggles of id 2 on the seed data flip the flag of the
Incident at index 1, and a double toggle is the identity. -/
theorem claim_C4_witness :
    ((toggleAcknowledge 2)^[3] initialIncidents)[1]? =
      some { initialIncidents.get ⟨1, by decide⟩ with
             acknowledged :=
               xor (initialIncidents.get ⟨1, by decide⟩).acknowledged
                 (3 % 2 == 1) } ∧
    toggleAcknowledge 2 (toggleAcknowledge 2 initialIncidents) =
      initialIncidents :=
  ⟨(claim_C4_toggle_parity 2 initialIncidents 3).1 ⟨1, by decide⟩ (by decide),
   (claim_C4_toggle_parity 2 initialIncidents 3).2⟩

/-- C9: selecting Incident x expands it whenever it was not the expanded
one (including from the collapsed state), and collapses it when it was;
the state holds at most one expanded id by construction. -/
theorem claim_C9_expansion (expanded : Option Nat) (x : Nat) :
    (expanded ≠ some x → selectExpand expanded x = some x) ∧
    (expanded = some x → selectExpand expanded x = none) := by
  constructor <;> intro h <;> simp [selectExpand, h]

/-- C9 witness: the transition table at ids 3 and 5. -/
theorem claim_C9_witness :
    selectExpand none 3 = some 3 ∧
    selectExpand (some 3) 3 = none ∧
    selectExpand (some 3) 5 = some 5 :=
  ⟨(claim_C9_expansion none 3).1 (by decide),
   (claim_C9_expansion (some 3) 3).2 rfl,
   (claim_C9_expansion (some 3) 5).1 (by decide)⟩

/-- C10: on an Incident with no tags field the search predicate is still
defined and reduces to the title/description tests alone. -/
theorem claim_C10_no_tags (search : String) (i : Incident)
    (h : i.tags = none) :
    (searchKeep search i = true ↔
      (jsIncludes (jsToLower i.title) (jsToLower search) = true ∨
       jsIncludes (jsToLower i.description) (jsToLower search) = true)) := by
  simp [searchKeep, h]

/-- C10 witness: a tagless Incident is found through its title. -/
theorem claim_C10_witness :
    searchKeep "leak"
        { id := 7, title := "Minor Data Leak", description := "d",
          severity := "Low", reported_at := "2025-01-01",
          acknowledged := false, tags := none } = true ↔
      (jsIncludes (jsToLower "Minor Data Leak") (jsToLower "leak") = true ∨
       jsIncludes (jsToLower "d") (jsToLower "leak") = true) :=
  claim_C10_no_tags "leak"
    { id := 7, title := "Minor Data Leak", description := "d",
      severity := "Low", reported_at := "2025-01-01",
      acknowledged := false, tags := none } rfl

unseal List.merge List.mergeSort in
/-- C5: the rendered list is the stable sort, by parsed report instant
(descending for "newest", ascending otherwise), of the already-filtered
store: it equals mergeSort applied to the filtered list, is a permutation
of it, is ordered by the comparator, keeps equal-instant Incidents in
their filtered order, and sorts the example dates 03-15, 04-01, 03-20 to
[04-01, 03-20, 03-15] under "newest" and [03-15, 03-20, 04-01] under
"oldest". -/
theorem claim_C5_pipeline (filter search sortOrder : String)
    (incidents : List Incident) :
    sortedView filter search sortOrder incidents =
      (filtered filter search incidents).mergeSort
        (fun a b => decide (compareByTime sortOrder a b ≤ 0)) ∧
    List.Perm (sortedView filter search sortOrder incidents)
      (filtered filter search incidents) ∧
    (sortedView filter search sortOrder incidents).Pairwise
      (fun a b => compareByTime sortOrder a b ≤ 0) ∧
    (∀ t : Int,
      (sortedView filter search sortOrder incidents).filter
          (fun i => getTime i.reported_at == t) =
        (filtered filter search incidents).filter
          (fun i => getTime i.reported_at == t)) ∧
    sortedView "All" "" "newest" [exMar15, exApr01, exMar20] =
      [exApr01, exMar20, exMar15] ∧
    sortedView "All" "" "oldest" [exMar15, exApr01, exMar20] =
      [exMar15, exMar20, exApr01] := by
  refine ⟨rfl, List.mergeSort_perm _ _, ?_, ?_, by decide, by decide⟩
  · have h := @List.sorted_mergeSort Incident
      (fun a b => decide (compareByTime sortOrder a b ≤ 0))
      (compareByTime_trans sortOrder) (compareByTime_total sortOrder)
      (filtered filter search incidents)
    exact h.imp fun hab => of_decide_eq_true hab
  · intro t
    have hperm : List.Perm (sortedView filter search sortOrder incidents)
        (filtered filter search incidents) := List.mergeSort_perm _ _
    have hpw : ((filtered filter search incidents).filter
        (fun i => getTime i.reported_at == t)).Pairwise
        (fun a b => (decide (compareByTime sortOrder a b ≤ 0)) = true) := by
      apply List.pairwise_of_forall_mem_list
      intro a ha b hb
      have ha2 : getTime a.reported_at = t := by
        simpa using List.of_mem_filter ha
      have hb2 : getTime b.reported_at = t := by
        simpa using List.of_mem_filter hb
      simp only [decide_eq_true_eq]
      unfold compareByTime
      by_cases ho : (sortOrder == "newest") = true
      · rw [if_pos ho, ha2, hb2]; omega
      · rw [if_neg ho, ha2, hb2]; omega
    have hsub : List.Sublist
        ((filtered filter search incidents).filter
          (fun i => getTime i.reported_at == t))
        (sortedView filter search sortOrder incidents) :=
      List.sublist_mergeSort (compareByTime_trans sortOrder)
        (compareByTime_total sortOrder) hpw
        (List.filter_sublist _)
    have hAB : List.Sublist
        ((filtered filter search incidents).filter
          (fun i => getTime i.reported_at == t))
        ((sortedView filter search sortOrder incidents).filter
          (fun i => getTime i.reported_at == t)) := by
      have h1 : ((filtered filter search incidents).filter
          (fun i => getTime i.reported_at == t)).filter
            (fun i => getTime i.reported_at == t) =
          (filtered filter search incidents).filter
            (fun i => getTime i.reported_at == t) := by
        rw [List.filter_filter]
        simp
      have h2 := List.Sublist.filter
        (fun i => getTime i.reported_at == t) hsub
      rwa [h1] at h2
    have hlen : ((sortedView filter search sortOrder incidents).filter
        (fun i => getTime i.reported_at == t)).length =
        ((filtered filter search incidents).filter
          (fun i => getTime i.reported_at == t)).length :=
      (hperm.filter _).length_eq
    exact (hAB.eq_of_length hlen.symm).symm

/-- C6: the search predicate holds exactly when the search text is empty
or is a case-insensitive substring of the title, the description, or some
tag; in particular "llm" finds the Incident tagged "LLM" whose title and
description match nowhere. -/
theorem claim_C6_search_filter (search : String) (i : Incident) :
    (searchKeep search i = true ↔
      (search = "" ∨
       jsIncludes (jsToLower i.title) (jsToLower search) = true ∨
       jsIncludes (jsToLower i.description) (jsToLower search) = true ∨
       (∃ tag ∈ i.tags.getD [],
         jsIncludes (jsToLower tag) (jsToLower search) = true))) ∧
    searchKeep "llm" exLLM = true := by
  refine ⟨?_, by decide⟩
  by_cases hq : search = ""
  · subst hq
    have h1 : jsToLower "" = "" := rfl
    have h2 : ∀ s : String, jsIncludes s "" = true :=
      fun s => containsSeq_nil s.data
    simp [searchKeep, h1, h2]
  · rcases htags : i.tags with _ | ts
    · simp [searchKeep, htags, hq]
    · simp only [searchKeep, htags, hq, List.any_eq_true, Bool.or_eq_true,
        Option.getD_some, false_or]
      tauto

/-- C7: the severity filter keeps an Incident exactly when the selector is
"All" or equals the Incident's severity, it preserves relative order (the
result is a sublist), and on severities [Low, High, Medium, High] the
selector "High" yields the two High Incidents in their original order. -/
theorem claim_C7_severity_filter (filter : String)
    (incidents : List Incident) :
    (∀ i : Incident,
      sevKeep filter i = true ↔ (filter = "All" ∨ i.severity = filter)) ∧
    (incidents.filter (sevKeep filter)).Sublist incidents ∧
    List.filter (sevKeep "High") [exSevLow, exSevHigh1, exSevMed, exSevHigh2] =
      [exSevHigh1, exSevHigh2] := by
  refine ⟨fun i => ?_, List.filter_sublist _, by decide⟩
  by_cases h : filter = "All"
  · simp [sevKeep, h]
  · simp [sevKeep, h]

/-- C8 as stated fails on the code: `Date.now()` has millisecond
resolution, so two adds carrying the same clock reading assign the same
id twice. -/
theorem claim_C8_counterexample :
    ¬ (storeIds (runOps
        [Op.add 500 "2025-05-01T00:00:00Z"
          { title := "T", description := "D", severity := "Low", tags := "" },
         Op.add 500 "2025-05-01T00:00:00Z"
          { title := "T", description := "D", severity := "Low", tags := "" }]
        initialIncidents)).Nodup := by decide

/-- Toggling never changes the ids in the store. -/
theorem storeIds_toggle (id : Nat) (incidents : List Incident) :
    storeIds (toggleAcknowledge id incidents) = storeIds incidents := by
  unfold storeIds toggleAcknowledge
  rw [List.map_map]
  refine List.map_congr_left fun a _ => ?_
  by_cases h : (a.id == id) = true <;> simp [Function.comp, h]

/-- C8 amended: provided the clock readings consumed by the add operations
are pairwise distinct and distinct from every id already in the store,
any sequence of add and toggleAcknowledge operations preserves pairwise
distinctness of the ids (so no id is ever assigned twice). -/
theorem claim_C8_amended (ops : List Op) (incidents : List Incident)
    (hstore : (storeIds incidents).Nodup)
    (htimes : (addTimes ops).Nodup)
    (hfresh : ∀ t ∈ addTimes ops, t ∉ storeIds incidents) :
    (storeIds (runOps ops incidents)).Nodup := by
  induction ops generalizing incidents with
  | nil => exact hstore
  | cons op rest ih =>
    cases op with
    | toggle id =>
      rw [runOps]
      show (storeIds (runOps rest (toggleAcknowledge id incidents))).Nodup
      refine ih (toggleAcknowledge id incidents) ?_ ?_ ?_
      · rwa [storeIds_toggle]
      · exact htimes
      · intro t ht
        rw [storeIds_toggle]
        exact hfresh t ht
    | add nowMs nowIso draft =>
      rw [runOps]
      show (storeIds (runOps rest
        ((handleAddIncident nowMs nowIso draft incidents).1))).Nodup
      have htimes' : (addTimes rest).Nodup := (List.nodup_cons.mp htimes).2
      have hnm : nowMs ∉ addTimes rest := (List.nodup_cons.mp htimes).1
      by_cases hv : (jsTrim draft.title == "" ||
          jsTrim draft.description == "") = true
      · rw [handleAddIncident, if_pos hv]
        refine ih incidents hstore htimes' ?_
        intro t ht
        exact hfresh t (by simp [addTimes, ht])
      · rw [handleAddIncident, if_neg hv]
        refine ih _ ?_ htimes' ?_
        · simp only [storeIds, List.map_cons]
          refine List.nodup_cons.mpr ⟨?_, hstore⟩
          exact hfresh nowMs (by simp [addTimes])
        · intro t ht
          simp only [storeIds, List.map_cons]
          intro hmem
          rcases List.mem_cons.mp hmem with h1 | h1
          · exact hnm (h1 ▸ ht)
          · exact hfresh t (by simp [addTimes, ht]) h1

/-- C8 amended witness: two adds at distinct fresh times interleaved with
a toggle keep all ids distinct. -/
theorem claim_C8_witness :
    (storeIds (runOps
      [Op.add 500 "2025-05-01T00:00:00Z"
        { title := "T", description := "D", severity := "Low", tags := "" },
       Op.toggle 1,
       Op.add 501 "2025-05-01T00:00:01Z"
        { title := "U", description := "E", severity := "High", tags := "x" }]
      initialIncidents)).Nodup :=
  claim_C8_amended
    [Op.add 500 "2025-05-01T00:00:00Z"
      { title := "T", description := "D", severity := "Low", tags := "" },
     Op.toggle 1,
     Op.add 501 "2025-05-01T00:00:01Z"
      { title := "U", description := "E", severity := "High", tags := "x" }]
    initialIncidents (by decide) (by decide) (by decide)

end Dashboard
